import Mathlib

/-!
Shallow embedding of the Linux `IOCtlSrc` optical-disc reader
(`CDVDdiscReader` backend): device session state, geometry probing
(`ReadDVDInfo`, `ReadCDInfo`), sector readers (`ReadSectors2048`,
`ReadSectors2352`), `Reopen` and `DiscReady`.

The OS device (every `ioctl`/`open`/`pread` response) is modelled as a
deterministic oracle `Device`: each field supplies the answer the kernel
would give to the corresponding call.  The session object `IOCtlSrc`
carries the mutable fields of the C++ class.  C `u32` arithmetic is
modelled over `Nat` with explicit reduction modulo `2^32`.
-/

namespace CDVD

/-- Modulus of C `u32` arithmetic. -/
def M32 : Nat := 4294967296

/-- C `u32` addition: wraparound modulo `2^32`. -/
def uadd (a b : Nat) : Nat := (a + b) % M32

/-- C `u32` subtraction: wraparound modulo `2^32` (inputs taken mod `2^32`). -/
def usub (a b : Nat) : Nat := (a % M32 + (M32 - b % M32)) % M32

/-- The C expression `~x & 0xFFFFFFU` on a `u32` value `x`: bitwise
complement (xor with all 32 ones) masked to the low 24 bits. -/
def compl24 (x : Nat) : Nat := ((x % M32) ^^^ 4294967295) &&& 16777215

/-- `CDROM_LBA` addressing-format constant from `linux/cdrom.h`. -/
def CDROM_LBA : Nat := 1

/-- `CDS_DISC_OK` drive-status constant from `linux/cdrom.h`. -/
def CDS_DISC_OK : Nat := 4

/-- One physical-layer descriptor of the `dvd_struct` returned by the
`DVD_READ_STRUCT` ioctl: the fields the code reads
(`nlayers`, `track_path`, `start_sector`, `end_sector`, `end_sector_l0`). -/
structure dvd_layer where
  nlayers : Nat
  track_path : Nat
  start_sector : Nat
  end_sector : Nat
  end_sector_l0 : Nat
deriving DecidableEq

/-- A stored TOC entry (`toc_entry` of `CDVDdiscReader.h`): built from
`cdte_addr.lba`, `cdte_track`, `cdte_adr`, `cdte_ctrl`. -/
structure toc_entry where
  lba : Nat
  track : Nat
  adr : Nat
  control : Nat
deriving DecidableEq

/-- The fields of a `cdrom_tocentry` filled in by a successful
`CDROMREADTOCENTRY` ioctl (the requested track number is echoed back). -/
structure tocentry_result where
  lba : Nat
  adr : Nat
  ctrl : Nat
deriving DecidableEq

/-- Deterministic oracle for the OS device layer: the answer the kernel
gives to each call the code can make.
* `open_ok` / `open_errno`: whether `open(path, O_RDONLY|O_NONBLOCK)`
  succeeds, and the `errno` it sets on failure;
* `dvd_struct_read n`: the layer descriptor extracted after a
  `DVD_READ_STRUCT` ioctl with `physical.layer_num = n`
  (`none` models ioctl return `-1`);
* `toc_header`: `(cdth_trk0, cdth_trk1)` from `CDROMREADTOCHDR`, `none` on
  failure (both fields are `__u8`; values are reduced mod 256 at use);
* `toc_entry_read fmt trk`: `CDROMREADTOCENTRY` for track `trk` with
  `cdte_format = fmt`, `none` on failure;
* `pread off n`: result of `pread(fd, buf, n, off)` — `some k` for a
  return of `k ≥ 0` bytes, `none` for `-1`;
* `raw_read_ok lba` / `raw_frame lba i`: whether the `CDROMREADRAW` ioctl
  for that sector succeeds, and byte `i` of the 2352-byte raw frame it
  yields (the code converts `lba` to MSF before the ioctl; the conversion
  function lives outside this translation unit, so the oracle is keyed
  directly by the LBA);
* `drive_status`: result of `CDROM_DRIVE_STATUS` with `CDSL_CURRENT`. -/
structure Device where
  open_ok : Bool
  open_errno : Nat
  dvd_struct_read : Nat → Option dvd_layer
  toc_header : Option (Nat × Nat)
  toc_entry_read : Nat → Nat → Option tocentry_result
  pread : Nat → Nat → Option Nat
  raw_read_ok : Nat → Bool
  raw_frame : Nat → Nat → Nat
  drive_status : Nat

/-- The mutable state of the `IOCtlSrc` object: `m_device` (`true` iff the
handle is open, i.e. the C member is not `-1`), and the geometry/TOC
members `m_sectors : u32`, `m_layer_break : u32`, `m_media_type : s32`,
`m_toc`. -/
structure IOCtlSrc where
  m_device : Bool
  m_sectors : Nat
  m_layer_break : Nat
  m_media_type : Int
  m_toc : List toc_entry
deriving DecidableEq

/-- `IOCtlSrc::ReadDVDInfo`: request the physical descriptor for layer 0;
on ioctl failure return false with no field mutated.  Otherwise branch on
`nlayers` and `track_path` exactly as the source does, computing every
`u32` expression left-to-right with wraparound:
* single layer: `m_sectors = end_sector - start_sector + 1`;
* parallel track path (`track_path == 0`): re-request with
  `layer_num = 1` (failure → return false, no mutation), then
  `m_sectors = end_sector - start_sector + 1 + layer1_end_sector -
  layer1_start_sector + 1`;
* opposite track path: `m_sectors = end_sector_layer0 - start_sector + 1 +
  end_sector - (~end_sector_layer0 & 0xFFFFFFU) + 1`. -/
def ReadDVDInfo (d : Device) (s : IOCtlSrc) : Bool × IOCtlSrc :=
  match d.dvd_struct_read 0 with
  | none => (false, s)
  | some l0 =>
    let start_sector := l0.start_sector
    let end_sector := l0.end_sector
    if l0.nlayers = 0 then
      (true, { s with m_media_type := 0, m_layer_break := 0,
                      m_sectors := uadd (usub end_sector start_sector) 1 })
    else if l0.track_path = 0 then
      match d.dvd_struct_read 1 with
      | none => (false, s)
      | some l1 =>
        let layer1_start_sector := l1.start_sector
        let layer1_end_sector := l1.end_sector
        (true, { s with m_media_type := 1,
                        m_layer_break := usub end_sector start_sector,
                        m_sectors := uadd (usub (uadd (uadd (usub end_sector start_sector) 1)
                                                      layer1_end_sector)
                                                layer1_start_sector) 1 })
    else
      let end_sector_layer0 := l0.end_sector_l0
      (true, { s with m_media_type := 2,
                      m_layer_break := usub end_sector_layer0 start_sector,
                      m_sectors := uadd (usub (uadd (uadd (usub end_sector_layer0 start_sector) 1)
                                                    end_sector)
                                              (compl24 end_sector_layer0)) 1 })

/-- The body of one iteration of the TOC track loop: request the entry for
track `n` with `cdte_format = CDROM_LBA`; a failed ioctl contributes
nothing (the entry is silently skipped), a successful one contributes the
stored entry `{lba, track, adr, control}`. -/
def toc_try_read (d : Device) (n : Nat) : List toc_entry :=
  match d.toc_entry_read CDROM_LBA n with
  | none => []
  | some e => [⟨e.lba % M32, n, e.adr, e.ctrl⟩]

/-- The C loop `for (u8 n = trk0; n <= trk1; ++n)` collecting TOC entries.
The loop counter is an 8-bit unsigned value, so `++n` wraps modulo 256 and
the test `n <= trk1` is decided on the wrapped value.  `fuel` bounds the
number of iterations modelled; since the loop condition depends only on
`n`, which cycles through all 256 residues, fuel `257` is exact: the
function returns `none` precisely when the C loop never terminates
(which happens exactly when `trk1 = 255`). -/
def toc_loop (d : Device) (t1 : Nat) : Nat → Nat → List toc_entry → Option (List toc_entry)
  | 0, _, _ => none
  | fuel + 1, n, acc =>
    if n ≤ t1 then toc_loop d t1 fuel ((n + 1) % 256) (acc ++ toc_try_read d n)
    else some acc

/-- `IOCtlSrc::ReadCDInfo`: read the TOC header (failure → return false
with no field mutated); then clear `m_toc` and run the track loop pushing
the entries that read successfully; then read the lead-out entry
(track `0xAA`): failure → return false (with `m_toc` already replaced),
success → `m_sectors = cdte_addr.lba` (cast to `u32`), `m_media_type = -1`.
The outer `Option` is `none` exactly when the track loop diverges
(`cdth_trk1 = 255`): the call then never returns at all. -/
def ReadCDInfo (d : Device) (s : IOCtlSrc) : Option (Bool × IOCtlSrc) :=
  match d.toc_header with
  | none => some (false, s)
  | some (trk0, trk1) =>
    match toc_loop d (trk1 % 256) 257 (trk0 % 256) [] with
    | none => none
    | some new_toc =>
      match d.toc_entry_read CDROM_LBA 0xAA with
      | none => some (false, { s with m_toc := new_toc })
      | some e => some (true, { s with m_toc := new_toc,
                                       m_sectors := e.lba % M32,
                                       m_media_type := -1 })

/-- A probe event recorded by `Reopen`: which geometry probe was invoked. -/
inductive ProbeEv where
  | dvd : ProbeEv
  | cd : ProbeEv
deriving DecidableEq

/-- What a completed `Reopen` call yields: the boolean return value, the
session state afterwards, the errno delivered to a (non-null) `Error`
out-parameter (`none` when `Error::SetErrno` was never called), and the
sequence of geometry probes invoked, in order. -/
structure ReopenResult where
  ok : Bool
  st : IOCtlSrc
  err : Option Nat
  probes : List ProbeEv
deriving DecidableEq

/-- `IOCtlSrc::Reopen`: close any current handle, then
`open(path, O_RDONLY | O_NONBLOCK)`.  On open failure set the errno on the
error out-parameter, leave `m_device = -1` and return false.  On success
run `ReadDVDInfo() || ReadCDInfo()` (short-circuit: the CD probe runs only
when the DVD probe returned false) — their success only gates the no-op
`SetSpindleSpeed(false)` — and return true.  `none` models the call never
returning (possible only through a divergent `ReadCDInfo`). -/
def Reopen (d : Device) (s : IOCtlSrc) : Option ReopenResult :=
  if d.open_ok = false then
    some ⟨false, { s with m_device := false }, some d.open_errno, []⟩
  else
    let s1 := { s with m_device := true }
    let dvd := ReadDVDInfo d s1
    if dvd.1 = true then
      some ⟨true, dvd.2, none, [ProbeEv.dvd]⟩
    else
      match ReadCDInfo d dvd.2 with
      | none => none
      | some cd => some ⟨true, cd.2, none, [ProbeEv.dvd, ProbeEv.cd]⟩

/-- `IOCtlSrc::DiscReady`: no handle → return false immediately.
Otherwise query `CDROM_DRIVE_STATUS` with `CDSL_CURRENT`: on
`CDS_DISC_OK`, if `m_sectors == 0` run `Reopen(nullptr)` (its return value
is ignored); on any other status zero `m_sectors`, `m_layer_break` and
`m_media_type`.  Return `!!m_sectors`.  The last component of the result
records whether `Reopen` was invoked; `none` models a never-returning
nested `Reopen`. -/
def DiscReady (d : Device) (s : IOCtlSrc) : Option (Bool × IOCtlSrc × Bool) :=
  if s.m_device = false then
    some (false, s, false)
  else if d.drive_status = CDS_DISC_OK then
    if s.m_sectors = 0 then
      match Reopen d s with
      | none => none
      | some r => some (decide (r.st.m_sectors ≠ 0), r.st, true)
    else
      some (true, s, false)
  else
    some (false, { s with m_sectors := 0, m_layer_break := 0, m_media_type := 0 }, false)

/-- The `bytes_to_read` computation of `IOCtlSrc::ReadSectors2048`:
`2048 * count` where `2048 : int` is converted to `unsigned int`, so the
product wraps modulo `2^32` before being widened to `ssize_t`. -/
def bytes_to_read (count : Nat) : Nat := (2048 * count) % M32

/-- The single positioned read issued by `IOCtlSrc::ReadSectors2048`:
`pread(m_device, buffer, bytes_to_read, sector * 2048ULL)` — the offset is
computed in 64-bit arithmetic (`sector` is a `u32`, so `sector * 2048`
never wraps), the length is `bytes_to_read`.  The result is the byte count
transferred (`none` = error return `-1`). -/
def preadTransferred (d : Device) (sector count : Nat) : Option Nat :=
  d.pread (sector % M32 * 2048) (bytes_to_read count)

/-- `IOCtlSrc::ReadSectors2048`: returns true exactly when the positioned
read returns `bytes_to_read`; an error return or any other byte count
returns false (after logging). -/
def ReadSectors2048 (d : Device) (sector count : Nat) : Bool :=
  match preadTransferred d sector count with
  | none => false
  | some bytes_read => decide (bytes_read = bytes_to_read count)

/-- The 2352-byte raw frame the `CDROMREADRAW` ioctl deposits for `lba`,
as the list of its bytes. -/
def frame_bytes (d : Device) (lba : Nat) : List Nat :=
  (List.range 2352).map (d.raw_frame lba)

/-- The loop of `IOCtlSrc::ReadSectors2352`, iterating `n` from 0 while
`n < count` with `u32 lba = sector + n` (wrapping `u32` addition): on a
failed `CDROMREADRAW` return false immediately; on success append the
2352-byte frame to the output buffer and continue.  Returns
(return value, bytes written to the output buffer, LBAs attempted in
order). -/
def rs2352_loop (d : Device) : Nat → Nat → Bool × List Nat × List Nat
  | _, 0 => (true, [], [])
  | sector, k + 1 =>
    let lba := sector % M32
    if d.raw_read_ok lba then
      let r := rs2352_loop d (sector + 1) k
      (r.1, frame_bytes d lba ++ r.2.1, lba :: r.2.2)
    else
      (false, [], [lba])

/-- `IOCtlSrc::ReadSectors2352` (see `rs2352_loop`). -/
def ReadSectors2352 (d : Device) (sector count : Nat) : Bool × List Nat × List Nat :=
  rs2352_loop d sector count

/-- `IOCtlSrc::GetSectorCount`. -/
def GetSectorCount (s : IOCtlSrc) : Nat := s.m_sectors

/-- `IOCtlSrc::GetLayerBreakAddress`. -/
def GetLayerBreakAddress (s : IOCtlSrc) : Nat := s.m_layer_break

/-- `IOCtlSrc::GetMediaType`. -/
def GetMediaType (s : IOCtlSrc) : Int := s.m_media_type

/-- Closed form of a terminating run of the TOC track loop: the entries
contributed by tracks `n, n+1, …, t1` in order (empty when `n > t1`),
each track contributing its `toc_try_read` result. -/
def toc_collect (d : Device) (t1 n : Nat) : List toc_entry :=
  ((List.range (t1 + 1 - n)).map (fun i => toc_try_read d (n + i))).flatten

/-- A session that has never resolved any geometry: no open handle, all
fields zero, empty TOC. -/
def st0 : IOCtlSrc := ⟨false, 0, 0, 0, []⟩

/-- A device oracle where every call fails (empty drive). -/
def dev0 : Device :=
  ⟨true, 0, fun _ => none, none, fun _ _ => none, fun _ _ => none,
   fun _ => false, fun _ _ => 0, 0⟩

/-- Layer-0 descriptor of a concrete opposite-track-path dual-layer DVD. -/
def layer_otp : dvd_layer := ⟨1, 1, 196608, 2000000, 1500000⟩

/-- Device presenting the opposite-track-path DVD `layer_otp`. -/
def dev_otp : Device :=
  { dev0 with dvd_struct_read := fun n => if n = 0 then some layer_otp else none }

/-- Layer-0 descriptor of a concrete parallel-track-path dual-layer DVD. -/
def layer_ptp0 : dvd_layer := ⟨1, 0, 100, 1100, 0⟩

/-- Layer-1 descriptor for the parallel-track-path DVD. -/
def layer_ptp1 : dvd_layer := ⟨1, 0, 2000, 2500, 0⟩

/-- Device presenting the parallel-track-path DVD
(`layer_ptp0`, `layer_ptp1`). -/
def dev_ptp : Device :=
  { dev0 with dvd_struct_read := fun n =>
      if n = 0 then some layer_ptp0 else if n = 1 then some layer_ptp1 else none }

/-- Device presenting `layer_ptp0` but failing the layer-1 re-query, with
a readable CD TOC behind it (for the fallback observation). -/
def dev_ptp_requery_fail : Device :=
  { dev0 with
      dvd_struct_read := fun n => if n = 0 then some layer_ptp0 else none,
      toc_header := some (1, 1),
      toc_entry_read := fun _ trk =>
        if trk = 1 then some ⟨150, 1, 4⟩ else if trk = 0xAA then some ⟨333000, 1, 4⟩ else none }

/-- Layer-0 descriptor of a concrete single-layer DVD. -/
def layer_sl : dvd_layer := ⟨0, 0, 196608, 2295103, 0⟩

/-- Device presenting the single-layer DVD `layer_sl`. -/
def dev_sl : Device :=
  { dev0 with dvd_struct_read := fun n => if n = 0 then some layer_sl else none }

/-- Device with no DVD structure and a two-track CD TOC whose second
track entry fails to read. -/
def dev_cd : Device :=
  { dev0 with
      toc_header := some (1, 2),
      toc_entry_read := fun _ trk =>
        if trk = 1 then some ⟨150, 1, 4⟩ else if trk = 0xAA then some ⟨360000, 1, 4⟩ else none }

/-- The completed `Reopen` outcome on `dev_cd` starting from `st0`. -/
def reopen_cd_result : ReopenResult :=
  ⟨true, ⟨true, 360000, 0, -1, [⟨150, 1, 1, 4⟩]⟩, none, [ProbeEv.dvd, ProbeEv.cd]⟩

/-- Device whose TOC header reports last track 255: the `u8` track loop
of `ReadCDInfo` never terminates on it. -/
def dev_trk255 : Device :=
  { dev0 with
      toc_header := some (1, 255),
      toc_entry_read := fun _ trk => if trk = 0xAA then some ⟨360000, 1, 4⟩ else none }

/-- Device whose TOC header read fails outright. -/
def dev_nohdr : Device := dev0

/-- A session holding a previously built non-empty TOC and resolved CD
geometry. -/
def st_oldtoc : IOCtlSrc := ⟨true, 1000, 0, -1, [⟨150, 1, 1, 4⟩, ⟨5000, 2, 1, 0⟩]⟩

/-- Device whose `pread` always transfers 0 bytes. -/
def dev_pread0 : Device := { dev0 with pread := fun _ _ => some 0 }

/-- Device whose `pread` transfers exactly the requested byte count. -/
def dev_pread_full : Device := { dev0 with pread := fun _ n => some n }

/-- Device on which raw 2352-byte reads succeed only for LBA < 2, with
frame bytes `lba * 4096 + i`. -/
def dev_raw2 : Device :=
  { dev0 with raw_read_ok := fun lba => decide (lba < 2),
              raw_frame := fun lba i => lba * 4096 + i }

/-- Device reporting drive status `CDS_NO_DISC` (1). -/
def dev_nodisc : Device := { dev0 with drive_status := 1 }

/-- Device whose `open` fails with errno 2 (`ENOENT`). -/
def dev_openfail : Device := { dev0 with open_ok := false, open_errno := 2 }

/-- A session with an open handle and fully resolved dual-layer DVD
geometry. -/
def st_resolved : IOCtlSrc := ⟨true, 2084960, 912384, 1, []⟩

/-- Regrouping the left-associated `u32` chain `a - b + 1 + c - d + 1`
into `(a - b + 1) + (c - d + 1)` does not change its value: both are the
residue of the same integer modulo `2^32`. -/
theorem u32_chain_regroup (a b c d : Nat) :
    uadd (usub (uadd (uadd (usub a b) 1) c) d) 1 =
      uadd (uadd (usub a b) 1) (uadd (usub c d) 1) := by
  unfold uadd usub M32
  omega

/-- C9: a successful DVD probe whose layer-0 descriptor reports
`nlayers == 0` sets `m_media_type = 0`, `m_layer_break = 0` and
`m_sectors = end_sector - start_sector + 1` (`u32` arithmetic), and
returns true. -/
theorem dvd_single_layer_geometry (d : Device) (s : IOCtlSrc) (l0 : dvd_layer)
    (h : d.dvd_struct_read 0 = some l0) (hn : l0.nlayers = 0) :
    ReadDVDInfo d s =
      (true, { s with m_media_type := 0, m_layer_break := 0,
                      m_sectors := uadd (usub l0.end_sector l0.start_sector) 1 }) := by
  unfold ReadDVDInfo
  rw [h]
  simp [hn]

/-- Witness for `dvd_single_layer_geometry` on the concrete single-layer
device `dev_sl`: 2295103 - 196608 + 1 = 2098496 sectors. -/
theorem dvd_single_layer_geometry_witness :
    dev_sl.dvd_struct_read 0 = some layer_sl ∧ layer_sl.nlayers = 0 ∧
      ReadDVDInfo dev_sl st0 = (true, ⟨false, 2098496, 0, 0, []⟩) := by
  refine ⟨by decide, by decide, ?_⟩
  have h := dvd_single_layer_geometry dev_sl st0 layer_sl (by decide) (by decide)
  rw [h]
  decide

/-- C1: a successful DVD probe whose layer-0 descriptor has a nonzero
layer count and a nonzero (opposite) track path sets `m_media_type = 2`,
`m_layer_break = end_sector_l0 - start_sector`, and
`m_sectors = (end_sector_l0 - start_sector + 1) +
(end_sector - (~end_sector_l0 & 0xFFFFFF) + 1)`, all in `u32` arithmetic,
where `compl24` is the exact bit complement (xor with 32 ones, masked to
the low 24 bits) of `end_sector_l0`. -/
theorem dvd_opposite_track_geometry (d : Device) (s : IOCtlSrc) (l0 : dvd_layer)
    (h : d.dvd_struct_read 0 = some l0) (hn : l0.nlayers ≠ 0) (ht : l0.track_path ≠ 0) :
    ReadDVDInfo d s =
      (true, { s with m_media_type := 2,
                      m_layer_break := usub l0.end_sector_l0 l0.start_sector,
                      m_sectors :=
                        uadd (uadd (usub l0.end_sector_l0 l0.start_sector) 1)
                             (uadd (usub l0.end_sector (compl24 l0.end_sector_l0)) 1) }) := by
  unfold ReadDVDInfo
  rw [h]
  simp [hn, ht, u32_chain_regroup]

/-- Witness for `dvd_opposite_track_geometry` on `dev_otp`
(start 196608, end_sector_l0 1500000, end_sector 2000000):
layer break 1303392, `~1500000 & 0xFFFFFF = 15277215`. -/
theorem dvd_opposite_track_geometry_witness :
    dev_otp.dvd_struct_read 0 = some layer_otp ∧ layer_otp.nlayers ≠ 0 ∧
      layer_otp.track_path ≠ 0 ∧
      ReadDVDInfo dev_otp st0 = (true, ⟨false, 4282993475, 1303392, 2, []⟩) := by
  refine ⟨by decide, by decide, by decide, ?_⟩
  have h := dvd_opposite_track_geometry dev_otp st0 layer_otp (by decide) (by decide) (by decide)
  rw [h]
  decide

/-- C2: for a DVD probe whose layer-0 descriptor has a nonzero layer count
and track path 0 (parallel), the descriptor is re-queried for layer 1.
If the re-query fails the whole probe returns false with no field mutated,
and a completed `Reopen` on such a device goes on to run the CD probe
after the DVD probe.  If it succeeds, the probe returns true with
`m_media_type = 1`, `m_layer_break = end0 - start0`, and
`m_sectors = (end0 - start0 + 1) + (end1 - start1 + 1)`
(`u32` arithmetic). -/
theorem dvd_parallel_track_geometry (d : Device) (s : IOCtlSrc) (l0 : dvd_layer)
    (h : d.dvd_struct_read 0 = some l0) (hn : l0.nlayers ≠ 0) (ht : l0.track_path = 0) :
    (d.dvd_struct_read 1 = none →
        ReadDVDInfo d s = (false, s) ∧
        (d.open_ok = true → ∀ r, Reopen d s = some r →
            r.probes = [ProbeEv.dvd, ProbeEv.cd])) ∧
    (∀ l1, d.dvd_struct_read 1 = some l1 →
        ReadDVDInfo d s =
          (true, { s with m_media_type := 1,
                          m_layer_break := usub l0.end_sector l0.start_sector,
                          m_sectors :=
                            uadd (uadd (usub l0.end_sector l0.start_sector) 1)
                                 (uadd (usub l1.end_sector l1.start_sector) 1) })) := by
  constructor
  · intro h1
    have hdvd : ∀ t : IOCtlSrc, ReadDVDInfo d t = (false, t) := by
      intro t
      unfold ReadDVDInfo
      rw [h, h1]
      simp [hn, ht]
    refine ⟨hdvd s, ?_⟩
    intro hopen r hr
    unfold Reopen at hr
    rw [hopen] at hr
    simp only [Bool.true_eq_false, if_false, hdvd] at hr
    cases hc : ReadCDInfo d { s with m_device := true } with
    | none => rw [hc] at hr; exact absurd hr (by simp)
    | some cd =>
      rw [hc] at hr
      cases hr
      rfl
  · intro l1 h1
    unfold ReadDVDInfo
    rw [h, h1]
    simp [hn, ht, u32_chain_regroup]

/-- Witness for `dvd_parallel_track_geometry` on `dev_ptp`
(layer 0 `[100,1100]`, layer 1 `[2000,2500]`): 1001 + 501 = 1502
sectors, layer break 1000. -/
theorem dvd_parallel_track_geometry_witness :
    dev_ptp.dvd_struct_read 0 = some layer_ptp0 ∧ layer_ptp0.nlayers ≠ 0 ∧
      layer_ptp0.track_path = 0 ∧ dev_ptp.dvd_struct_read 1 = some layer_ptp1 ∧
      ReadDVDInfo dev_ptp st0 = (true, ⟨false, 1502, 1000, 1, []⟩) := by
  refine ⟨by decide, by decide, by decide, by decide, ?_⟩
  have h := (dvd_parallel_track_geometry dev_ptp st0 layer_ptp0 (by decide) (by decide)
      (by decide)).2 layer_ptp1 (by decide)
  rw [h]
  decide

/-- C3: if the `open` fails, `Reopen` reports the OS errno through the
error out-parameter, leaves the session with no handle, and returns
false.  Once a handle is open, any completed `Reopen` returns true, the
DVD probe runs first, and the CD probe is attempted exactly when the DVD
probe fails. -/
theorem reopen_error_and_probe_order (d : Device) (s : IOCtlSrc) :
    (d.open_ok = false →
        Reopen d s = some ⟨false, { s with m_device := false }, some d.open_errno, []⟩) ∧
    (d.open_ok = true → ∀ r, Reopen d s = some r →
        r.ok = true ∧
        ((ReadDVDInfo d { s with m_device := true }).1 = true → r.probes = [ProbeEv.dvd]) ∧
        ((ReadDVDInfo d { s with m_device := true }).1 = false →
            r.probes = [ProbeEv.dvd, ProbeEv.cd])) := by
  constructor
  · intro h
    unfold Reopen
    rw [h]
    simp
  · intro h r hr
    unfold Reopen at hr
    rw [h] at hr
    simp only [Bool.true_eq_false, if_false] at hr
    by_cases hd : (ReadDVDInfo d { s with m_device := true }).1 = true
    · rw [if_pos hd] at hr
      cases hr
      exact ⟨rfl, fun _ => rfl, fun hf => by rw [hd] at hf; cases hf⟩
    · rw [if_neg hd] at hr
      cases hc : ReadCDInfo d (ReadDVDInfo d { s with m_device := true }).2 with
      | none => rw [hc] at hr; cases hr
      | some cd =>
        rw [hc] at hr
        cases hr
        exact ⟨rfl, fun ht => absurd ht hd, fun _ => rfl⟩

/-- Witness for `reopen_error_and_probe_order` on `dev_cd` (no DVD
structure, readable CD TOC): the completed `Reopen` returns true having
run the DVD probe and then the CD probe. -/
theorem reopen_error_and_probe_order_witness :
    dev_cd.open_ok = true ∧ Reopen dev_cd st0 = some reopen_cd_result ∧
      reopen_cd_result.ok = true ∧ reopen_cd_result.probes = [ProbeEv.dvd, ProbeEv.cd] := by
  have h := (reopen_error_and_probe_order dev_cd st0).2 (by decide) reopen_cd_result (by decide)
  exact ⟨by decide, by decide, h.1, h.2.2 (by decide)⟩

/-- C10: when `open` fails inside `Reopen` on a session with previously
resolved geometry, the geometry accessors keep returning the old values
even though the session now has no handle, and a subsequent `DiscReady`
returns false immediately without zeroing them (and without invoking
`Reopen`): a handleless session can still report a nonzero sector
count. -/
theorem reopen_failure_keeps_stale_geometry (d : Device) (s : IOCtlSrc)
    (hopen : d.open_ok = false) :
    Reopen d s = some ⟨false, { s with m_device := false }, some d.open_errno, []⟩ ∧
    GetSectorCount { s with m_device := false } = GetSectorCount s ∧
    GetLayerBreakAddress { s with m_device := false } = GetLayerBreakAddress s ∧
    GetMediaType { s with m_device := false } = GetMediaType s ∧
    (GetSectorCount s ≠ 0 → GetSectorCount { s with m_device := false } ≠ 0) ∧
    DiscReady d { s with m_device := false } =
      some (false, { s with m_device := false }, false) := by
  refine ⟨?_, rfl, rfl, rfl, fun h => h, ?_⟩
  · unfold Reopen
    rw [hopen]
    simp
  · unfold DiscReady
    simp

/-- Witness for `reopen_failure_keeps_stale_geometry`: `dev_openfail`
(open fails with errno 2) against the resolved session `st_resolved`
(2084960 sectors). -/
theorem reopen_failure_keeps_stale_geometry_witness :
    dev_openfail.open_ok = false ∧
      Reopen dev_openfail st_resolved =
        some ⟨false, { st_resolved with m_device := false }, some dev_openfail.open_errno, []⟩ ∧
      GetSectorCount { st_resolved with m_device := false } = 2084960 ∧
      DiscReady dev_openfail { st_resolved with m_device := false } =
        some (false, { st_resolved with m_device := false }, false) := by
  have h := reopen_failure_keeps_stale_geometry dev_openfail st_resolved (by decide)
  exact ⟨by decide, h.1, by decide, h.2.2.2.2.2⟩

theorem toc_collect_stop (d : Device) (t1 n : Nat) (h : t1 < n) :
    toc_collect d t1 n = [] := by
  unfold toc_collect
  rw [Nat.sub_eq_zero_of_le h]
  simp

theorem toc_collect_step (d : Device) (t1 n : Nat) (h : n ≤ t1) :
    toc_collect d t1 n = toc_try_read d n ++ toc_collect d t1 (n + 1) := by
  unfold toc_collect
  have h1 : t1 + 1 - n = (t1 - n) + 1 := by omega
  have h2 : t1 + 1 - (n + 1) = t1 - n := by omega
  rw [h1, h2, List.range_succ_eq_map, List.map_cons, List.flatten_cons, List.map_map]
  congr 1
  congr 1
  apply List.map_congr_left
  intro a _
  simp only [Function.comp]
  congr 1
  omega

/-- With fuel 257 the model of the `u8` track loop computes the exact run
of the C loop whenever `trk1 ≤ 254` (the loop counter then never wraps and
at most 256 iterations occur). -/
theorem toc_loop_run (d : Device) (t1 : Nat) (h254 : t1 ≤ 254) :
    ∀ fuel n acc, 1 ≤ fuel → n ≤ 255 → t1 + 2 ≤ n + fuel →
      toc_loop d t1 fuel n acc = some (acc ++ toc_collect d t1 n) := by
  intro fuel
  induction fuel with
  | zero => intro n acc h1 _ _; omega
  | succ f ih =>
    intro n acc _ hn hfu
    unfold toc_loop
    by_cases hle : n ≤ t1
    · rw [if_pos hle]
      have hmod : (n + 1) % 256 = n + 1 := Nat.mod_eq_of_lt (by omega)
      rw [hmod, ih (n + 1) (acc ++ toc_try_read d n) (by omega) (by omega) (by omega),
        toc_collect_step d t1 n hle, List.append_assoc]
    · rw [if_neg hle, toc_collect_stop d t1 n (by omega), List.append_nil]

/-- C4 (amended): a CD probe whose header read succeeds with last-track
byte `trk1 % 256 ≠ 255` replaces the stored TOC with the entries of
tracks `first..last` that read back successfully (each requested in LBA
mode, failures silently skipped), then reads the lead-out entry `0xAA`:
if it fails the probe returns false (TOC already replaced); if it
succeeds, the probe returns true with `m_sectors` the lead-out LBA and
`m_media_type = -1`. -/
theorem cd_probe_enumeration (d : Device) (s : IOCtlSrc) (trk0 trk1 : Nat)
    (hh : d.toc_header = some (trk0, trk1)) (h254 : trk1 % 256 ≤ 254) :
    (d.toc_entry_read CDROM_LBA 0xAA = none →
        ReadCDInfo d s =
          some (false, { s with m_toc := toc_collect d (trk1 % 256) (trk0 % 256) })) ∧
    (∀ e, d.toc_entry_read CDROM_LBA 0xAA = some e →
        ReadCDInfo d s =
          some (true, { s with m_toc := toc_collect d (trk1 % 256) (trk0 % 256),
                               m_sectors := e.lba % M32, m_media_type := -1 })) := by
  have h255 : trk0 % 256 < 256 := Nat.mod_lt _ (by omega)
  have hloop := toc_loop_run d (trk1 % 256) h254 257 (trk0 % 256) []
      (by omega) (by omega) (by omega)
  rw [List.nil_append] at hloop
  constructor
  · intro hAA
    unfold ReadCDInfo
    rw [hh]
    simp only []
    rw [hloop, hAA]
  · intro e hAA
    unfold ReadCDInfo
    rw [hh]
    simp only []
    rw [hloop, hAA]

set_option maxRecDepth 4000 in
/-- Counterexample to C4 as stated: on a device whose TOC header reports
last track 255 the `u8` track loop `for (u8 n = trk0; n <= trk1; ++n)`
never exits (the counter wraps modulo 256 while the test `n <= 255` is
always true), so the probe never reaches the lead-out read and never
returns at all — whereas the claim predicts it returns with the lead-out
LBA as sector count. -/
theorem cd_probe_trk255_nonterminating :
    ReadCDInfo dev_trk255 st0 = none ∧
      (ReadCDInfo dev_trk255 st0).isSome = false := by
  exact ⟨by decide, by decide⟩

/-- Witness for `cd_probe_enumeration` on `dev_cd` (tracks 1..2, track 2
unreadable, lead-out at LBA 360000). -/
theorem cd_probe_enumeration_witness :
    dev_cd.toc_header = some (1, 2) ∧ 2 % 256 ≤ 254 ∧
      dev_cd.toc_entry_read CDROM_LBA 0xAA = some ⟨360000, 1, 4⟩ ∧
      ReadCDInfo dev_cd st_oldtoc =
        some (true, { st_oldtoc with m_toc := toc_collect dev_cd (2 % 256) (1 % 256),
                                     m_sectors := 360000 % M32, m_media_type := -1 }) := by
  refine ⟨by decide, by decide, by decide, ?_⟩
  exact (cd_probe_enumeration dev_cd st_oldtoc 1 2 (by decide) (by decide)).2
    ⟨360000, 1, 4⟩ (by decide)

/-- Counterexample to C5 as stated: the probe does not clear the TOC
before the header read — the header is read first, and when it fails the
probe returns false with the previously built non-empty TOC fully
intact, not with an empty TOC. -/
theorem cd_probe_clear_order_counterexample :
    ReadCDInfo dev_nohdr st_oldtoc = some (false, st_oldtoc) ∧
      st_oldtoc.m_toc ≠ [] := by
  exact ⟨by decide, by decide⟩

/-- C5 (amended): the stored TOC is cleared only after the header read
succeeds; a CD probe whose header read fails returns false leaving the
session — in particular a previously built non-empty TOC — completely
unchanged. -/
theorem cd_probe_header_failure_preserves_state (d : Device) (s : IOCtlSrc)
    (hh : d.toc_header = none) :
    ReadCDInfo d s = some (false, s) := by
  unfold ReadCDInfo
  rw [hh]

/-- Witness for `cd_probe_header_failure_preserves_state` on `dev_nohdr`
and the session `st_oldtoc` holding a two-entry TOC. -/
theorem cd_probe_header_failure_preserves_state_witness :
    dev_nohdr.toc_header = none ∧
      ReadCDInfo dev_nohdr st_oldtoc = some (false, st_oldtoc) :=
  ⟨by decide, cd_probe_header_failure_preserves_state dev_nohdr st_oldtoc (by decide)⟩

/-- C7: on a session with an open handle, a `DiscReady` whose status
query reports anything other than `CDS_DISC_OK` zeroes all three geometry
fields and returns false; every completed `DiscReady` returns true iff
`GetSectorCount` is nonzero after the check; and when the status is
`CDS_DISC_OK` with `m_sectors == 0` a `Reopen` is triggered first. -/
theorem discready_reset_and_return (d : Device) (s : IOCtlSrc) (hdev : s.m_device = true) :
    (d.drive_status ≠ CDS_DISC_OK →
        DiscReady d s =
          some (false, { s with m_sectors := 0, m_layer_break := 0, m_media_type := 0 },
            false)) ∧
    (∀ r s2 b, DiscReady d s = some (r, s2, b) → (r = true ↔ GetSectorCount s2 ≠ 0)) ∧
    (d.drive_status = CDS_DISC_OK → s.m_sectors = 0 →
        ∀ r s2 b, DiscReady d s = some (r, s2, b) → b = true) := by
  refine ⟨?_, ?_, ?_⟩
  · intro hst
    unfold DiscReady
    rw [hdev]
    simp [hst]
  · intro r s2 b hcall
    unfold DiscReady at hcall
    rw [hdev] at hcall
    simp only [Bool.true_eq_false, if_false] at hcall
    by_cases hst : d.drive_status = CDS_DISC_OK
    · rw [if_pos hst] at hcall
      by_cases hz : s.m_sectors = 0
      · rw [if_pos hz] at hcall
        cases hR : Reopen d s with
        | none => rw [hR] at hcall; cases hcall
        | some rr =>
          rw [hR] at hcall
          simp only [Option.some.injEq, Prod.mk.injEq] at hcall
          obtain ⟨h1, h2, _⟩ := hcall
          subst h1 h2
          simp [GetSectorCount]
      · rw [if_neg hz] at hcall
        simp only [Option.some.injEq, Prod.mk.injEq] at hcall
        obtain ⟨h1, h2, _⟩ := hcall
        subst h1 h2
        simp [GetSectorCount, hz]
    · rw [if_neg hst] at hcall
      simp only [Option.some.injEq, Prod.mk.injEq] at hcall
      obtain ⟨h1, h2, _⟩ := hcall
      subst h1 h2
      simp [GetSectorCount]
  · intro hst hz r s2 b hcall
    unfold DiscReady at hcall
    rw [hdev] at hcall
    simp only [Bool.true_eq_false, if_false] at hcall
    rw [if_pos hst, if_pos hz] at hcall
    cases hR : Reopen d s with
    | none => rw [hR] at hcall; cases hcall
    | some rr =>
      rw [hR] at hcall
      simp only [Option.some.injEq, Prod.mk.injEq] at hcall
      exact hcall.2.2.symm

/-- Witness for `discready_reset_and_return`: `dev_nodisc` (status
`CDS_NO_DISC`) against the resolved session `st_resolved` — all three
geometry fields come back zero and the call returns false. -/
theorem discready_reset_and_return_witness :
    st_resolved.m_device = true ∧ dev_nodisc.drive_status ≠ CDS_DISC_OK ∧
      DiscReady dev_nodisc st_resolved = some (false, ⟨true, 0, 0, 0, []⟩, false) := by
  refine ⟨by decide, by decide, ?_⟩
  have h := (discready_reset_and_return dev_nodisc st_resolved (by decide)).1 (by decide)
  rw [h]
  decide

/-- Counterexample to C6 as stated: `bytes_to_read` is computed as
`2048 * count` in 32-bit unsigned arithmetic, so at `count = 2^21` the
request wraps to 0 bytes; a device that transfers the 0 requested bytes
makes the call return true even though `count * 2048 = 2^32` bytes were
not transferred — the claimed "true iff exactly `count*2048` bytes read"
fails for counts whose byte total overflows 32 bits. -/
theorem readsectors2048_count_wrap_counterexample :
    ReadSectors2048 dev_pread0 0 2097152 = true ∧
      preadTransferred dev_pread0 0 2097152 ≠ some (2097152 * 2048) := by
  exact ⟨by decide, by decide⟩

/-- C6 (amended): `ReadSectors2048` returns true iff the positioned read
transfers exactly `(2048 * count) mod 2^32` bytes (the request length
after the 32-bit multiplication); any error or short read returns false.
The byte offset passed to `pread` is `sector * 2048` computed in 64-bit
arithmetic — no wraparound for any `u32` sector. -/
theorem readsectors2048_exact_transfer (d : Device) (sector count : Nat)
    (hs : sector < M32) :
    (ReadSectors2048 d sector count = true ↔
        preadTransferred d sector count = some ((2048 * count) % M32)) ∧
    preadTransferred d sector count = d.pread (sector * 2048) ((2048 * count) % M32) := by
  unfold ReadSectors2048 preadTransferred bytes_to_read
  rw [Nat.mod_eq_of_lt hs]
  refine ⟨?_, rfl⟩
  cases d.pread (sector * 2048) ((2048 * count) % M32) with
  | none => simp
  | some n => simp

/-- Witness for `readsectors2048_exact_transfer`: a device transferring
exactly the requested bytes, `sector = 5`, `count = 1`. -/
theorem readsectors2048_exact_transfer_witness :
    5 < M32 ∧
      ((ReadSectors2048 dev_pread_full 5 1 = true ↔
          preadTransferred dev_pread_full 5 1 = some ((2048 * 1) % M32)) ∧
        preadTransferred dev_pread_full 5 1 =
          dev_pread_full.pread (5 * 2048) ((2048 * 1) % M32)) :=
  ⟨by decide, readsectors2048_exact_transfer dev_pread_full 5 1 (by decide)⟩

/-- Dropping `n` chunks of length `L` from a flattened list of
equal-length chunks and taking one chunk yields the `n`-th chunk. -/
theorem flatten_chunks :
    ∀ (n : Nat) (f : Nat → List Nat) (L k : Nat), (∀ i, (f i).length = L) → n < k →
      ((((List.range k).map f).flatten.drop (n * L)).take L) = f n := by
  intro n
  induction n with
  | zero =>
    intro f L k hf hk
    cases k with
    | zero => omega
    | succ m =>
      rw [List.range_succ_eq_map, List.map_cons, List.flatten_cons, Nat.zero_mul,
        List.drop_zero, ← hf 0]
      exact List.take_left _ _
  | succ n ih =>
    intro f L k hf hk
    cases k with
    | zero => omega
    | succ m =>
      rw [List.range_succ_eq_map, List.map_cons, List.flatten_cons]
      have hdrop : (n + 1) * L = (f 0).length + n * L := by rw [hf 0]; ring
      rw [hdrop, List.drop_append, List.map_map]
      exact ih (f ∘ Nat.succ) L m (fun i => hf (i + 1)) (by omega)

theorem range_succ_map {A : Type} (g : Nat → A) (k : Nat) :
    (List.range (k + 1)).map g = g 0 :: (List.range k).map (fun i => g (i + 1)) := by
  rw [List.range_succ_eq_map, List.map_cons, List.map_map]
  rfl

theorem range_succ_flatten (g : Nat → List Nat) (k : Nat) :
    ((List.range (k + 1)).map g).flatten =
      g 0 ++ ((List.range k).map (fun i => g (i + 1))).flatten := by
  rw [range_succ_map, List.flatten_cons]

/-- The loop of `ReadSectors2352` on a run whose first raw-read failure
is at index `k < count`: it returns false, the buffer holds exactly the
frames of the `k` sectors before the failure in order, and each of
`sector, …, sector + k` was attempted exactly once, in order. -/
theorem rs2352_loop_fail (d : Device) :
    ∀ (k sector count : Nat), k < count →
      (∀ i, i < k → d.raw_read_ok ((sector + i) % M32) = true) →
      d.raw_read_ok ((sector + k) % M32) = false →
      rs2352_loop d sector count =
        (false, ((List.range k).map fun i => frame_bytes d ((sector + i) % M32)).flatten,
          (List.range (k + 1)).map fun i => (sector + i) % M32) := by
  intro k
  induction k with
  | zero =>
    intro sector count hk hok hfail
    cases count with
    | zero => omega
    | succ c =>
      unfold rs2352_loop
      simp only []
      rw [show sector + 0 = sector from rfl] at hfail
      rw [hfail]
      rw [range_succ_map (fun i => (sector + i) % M32) 0]
      simp
  | succ k ih =>
    intro sector count hk hok hfail
    cases count with
    | zero => omega
    | succ c =>
      unfold rs2352_loop
      simp only []
      have h0 : d.raw_read_ok (sector % M32) = true := by
        have h := hok 0 (by omega)
        rwa [show sector + 0 = sector from rfl] at h
      rw [h0]
      simp only [if_true]
      rw [ih (sector + 1) c (by omega)
            (fun i hi => by
              rw [show sector + 1 + i = sector + (i + 1) from by omega]
              exact hok (i + 1) (by omega))
            (by rw [show sector + 1 + k = sector + (k + 1) from by omega]; exact hfail)]
      dsimp only
      rw [range_succ_flatten (fun i => frame_bytes d ((sector + i) % M32)) k,
        range_succ_map (fun i => (sector + i) % M32) (k + 1)]
      simp only [Nat.add_zero]
      have hbuf : (List.range k).map (fun i => frame_bytes d ((sector + 1 + i) % M32))
          = (List.range k).map (fun i => frame_bytes d ((sector + (i + 1)) % M32)) := by
        apply List.map_congr_left
        intro a _
        rw [show sector + 1 + a = sector + (a + 1) from by omega]
      have hatt : (List.range (k + 1)).map (fun i => (sector + 1 + i) % M32)
          = (List.range (k + 1)).map (fun i => (sector + (i + 1)) % M32) := by
        apply List.map_congr_left
        intro a _
        rw [show sector + 1 + a = sector + (a + 1) from by omega]
      rw [hbuf, hatt]

/-- C8: `ReadSectors2352` processes sectors in order from `startSector`
upward; on the first sector whose raw-frame read fails it returns false
immediately, with the 2352-byte frames of the sectors before the failing
one already written to the buffer — the `n`-th frame at byte offset
`n * 2352` — each sector attempted exactly once and none after the
failing one. -/
theorem readsectors2352_fail_fast (d : Device) (sector count k : Nat)
    (hk : k < count)
    (hok : ∀ i, i < k → d.raw_read_ok ((sector + i) % M32) = true)
    (hfail : d.raw_read_ok ((sector + k) % M32) = false) :
    ReadSectors2352 d sector count =
      (false, ((List.range k).map fun i => frame_bytes d ((sector + i) % M32)).flatten,
        (List.range (k + 1)).map fun i => (sector + i) % M32) ∧
    (∀ n, n < k →
      ((((List.range k).map fun i => frame_bytes d ((sector + i) % M32)).flatten.drop
          (n * 2352)).take 2352) = frame_bytes d ((sector + n) % M32)) := by
  refine ⟨rs2352_loop_fail d k sector count hk hok hfail, ?_⟩
  intro n hn
  exact flatten_chunks n (fun i => frame_bytes d ((sector + i) % M32)) 2352 k
    (fun i => by simp [frame_bytes]) hn

/-- Witness for `readsectors2352_fail_fast`: `dev_raw2` (raw reads
succeed only for LBA < 2), `sector = 0`, `count = 3`, failure at the
third sector. -/
theorem readsectors2352_fail_fast_witness :
    2 < 3 ∧ dev_raw2.raw_read_ok ((0 + 2) % M32) = false ∧
      ReadSectors2352 dev_raw2 0 3 =
        (false, ((List.range 2).map fun i => frame_bytes dev_raw2 ((0 + i) % M32)).flatten,
          (List.range 3).map fun i => (0 + i) % M32) := by
  refine ⟨by omega, by decide, ?_⟩
  exact (readsectors2352_fail_fast dev_raw2 0 3 2 (by omega) (by decide) (by decide)).1

end CDVD
